import Mathlib

/-!
Verification of the osu! tracking cog (`src/bottlecap/exts/osu.py`).

The Python code is shallowly embedded: each network call is represented by
the HTTP response the remote service would deliver (status code plus the
already-deserialized JSON body), and `alert_play` / `poll` become pure
functions that return an explicit trace of their side effects (store writes,
fetches attempted, delivery outcome).  Python exceptions escaping a function
are represented with `Except` / explicit error outcomes.
-/

namespace Bottlecap

/-- `OsuPlay`: the dataclass for one play, all fields strings as in the
source; `pp` defaults to `"0"` as in `pp: str = '0'`. -/
structure OsuPlay where
  user_id : String
  beatmap_id : String
  score : String
  maxcombo : String
  count50 : String
  count100 : String
  count300 : String
  countmiss : String
  countkatu : String
  countgeki : String
  perfect : String
  enabled_mods : String
  date : String
  rank : String
  pp : String := "0"
deriving DecidableEq, Repr

/-- `OsuBeatmap`: the dataclass for beatmap metadata, all fields strings as
in the source. -/
structure OsuBeatmap where
  beatmapset_id : String
  beatmap_id : String
  approved : String
  total_length : String
  hit_length : String
  version : String
  file_md5 : String
  diff_size : String
  diff_overall : String
  diff_approach : String
  diff_drain : String
  mode : String
  approved_date : String
  last_update : String
  artist : String
  title : String
  creator : String
  bpm : String
  source : String
  tags : String
  genre_id : String
  language_id : String
  favourite_count : String
  playcount : String
  passcount : String
  max_combo : String
  difficultyrating : String
deriving DecidableEq, Repr

/-- The tracking record stored per user in `AsyncJSONStorage('osu.json')`.
In the source it is an open dict with keys `channel_id`, `osu_username`,
`created_at`, `guild_id` and (optionally, once a play has been tracked)
`last_tracked`; `info.get('last_tracked')` returning `None` is `none` here.
`created_at` (`time.time()`, a float timestamp) is modelled as a `Nat`
tick; no behaviour depends on its value. -/
structure TrackingInfo where
  channel_id : Nat
  osu_username : String
  created_at : Nat
  guild_id : Nat
  last_tracked : Option String := none
deriving DecidableEq, Repr

/-- Errors escaping the API-client coroutines.  `httpStatus` models the
`aiohttp` error raised by `resp.raise_for_status()`; `emptyResult` models
the `IndexError` raised by `beatmaps[0]` on an empty JSON array.  The spec
groups both under its `RemoteError` taxonomy (non-success HTTP status or
missing resource from the score API). -/
inductive RemoteError where
  | httpStatus (code : Nat)
  | emptyResult
deriving DecidableEq, Repr

/-- One HTTP exchange with the osu! API: the response status and the
already-deserialized JSON body (`await resp.json()` plus the dataclass
construction, which no claim depends on, are folded into `body`). -/
structure HttpResponse (α : Type) where
  status : Nat
  body : α
deriving DecidableEq, Repr

/-- `aiohttp`'s `resp.raise_for_status()`: raises for any status of 400 or
above, otherwise does nothing. -/
def raise_for_status (status : Nat) : Except RemoteError Unit :=
  if 400 ≤ status then .error (.httpStatus status) else .ok ()

/-- `get_recent_plays`: `resp.raise_for_status()` then deserialize the body.
The request parameters (api key, user, limit) select which response the
service delivers and are part of the `HttpResponse` argument. -/
def get_recent_plays (resp : HttpResponse (List OsuPlay)) :
    Except RemoteError (List OsuPlay) :=
  match raise_for_status resp.status with
  | .error e => .error e
  | .ok _ => .ok resp.body

/-- `get_top_plays`: the source deserializes `await resp.json()` directly,
with no `resp.raise_for_status()` call (unlike `get_recent_plays` and
`get_beatmap`). -/
def get_top_plays (resp : HttpResponse (List OsuPlay)) :
    Except RemoteError (List OsuPlay) :=
  .ok resp.body

/-- `get_beatmap`: `resp.raise_for_status()`, then `beatmaps[0]` — which
raises (IndexError, here `RemoteError.emptyResult`) when the service
returns an empty array for an unknown beatmap id. -/
def get_beatmap (resp : HttpResponse (List OsuBeatmap)) :
    Except RemoteError OsuBeatmap :=
  match raise_for_status resp.status with
  | .error e => .error e
  | .ok _ =>
    match resp.body with
    | [] => .error .emptyResult
    | b :: _ => .ok b

/-- Digits of a decimal string as a natural number
(`"123"` to `123`; helper for `fmtOneDec`). -/
def parseNatDigits (s : String) : Nat :=
  s.foldl (fun n c => n * 10 + (c.toNat - 48)) 0

/-- The `{stars:.1f}` formatting of `float(beatmap.difficultyrating)` in
`PLAY_DESCRIPTION.format`, modelled on the decimal string: round to one
fractional digit, half away from zero.  (CPython formats the nearest IEEE-754
double with round-half-even; on the rare tie the last digit can differ.  No
claim depends on this field.) -/
def fmtOneDec (s : String) : String :=
  let sign := if s.startsWith "-" then "-" else ""
  let s' := if s.startsWith "-" then s.drop 1 else s
  let parts := s'.splitOn "."
  let ip := parts.headD ""
  let fp := (parts.drop 1).headD ""
  let k := fp.length
  let n := parseNatDigits (ip ++ fp)
  let tenths := (n * 10 * 2 + 10 ^ k) / (2 * 10 ^ k)
  sign ++ toString (tenths / 10) ++ "." ++ toString (tenths % 10)

/-- The `PLAY_DESCRIPTION` template, with each `{...}` placeholder replaced
by the corresponding field; `stars` is the already-formatted star rating. -/
def play_description (play : OsuPlay) (beatmap : OsuBeatmap) (stars : String) :
    String :=
  "Mapped by " ++ beatmap.creator ++ "  (" ++ stars ++ "*, " ++ beatmap.bpm ++
    " BPM)\n" ++
  play.rank ++ "  " ++ play.score ++ "  (x" ++ play.maxcombo ++ ")\n\n" ++
  play.count300 ++ "x300  " ++ play.count100 ++ "x100  " ++ play.count50 ++
    "x50  " ++ play.countmiss ++ "xMiss\n"

/-- The fields of the `discord.Embed` that `alert_play` builds. -/
structure Embed where
  title : String
  url : String
  author_name : String
  author_url : String
  description : String
deriving DecidableEq, Repr

/-- The embed built in `alert_play`: title from artist/title/version, link
to the beatmap, author line from the osu! username and the resolved
platform user (`f"... ({user})"` prints `None` when `bot.get_user` returns
`None`), and the formatted `PLAY_DESCRIPTION` body. -/
def mkEmbed (beatmap : OsuBeatmap) (info : TrackingInfo) (user : Option String)
    (play : OsuPlay) (stars : String) : Embed :=
  { title := beatmap.artist ++ " - " ++ beatmap.title ++ " [" ++
      beatmap.version ++ "]"
    url := "https://osu.ppy.sh/b/" ++ play.beatmap_id
    author_name := info.osu_username ++ " (" ++
      (match user with | some u => u | none => "None") ++ ")"
    author_url := "https://osu.ppy.sh/u/" ++ play.user_id
    description := play_description play beatmap stars }

/-- How one call to `alert_play` ended.  `stale` and `failedPlay` are the
two early `return`s; `beatmapError` / `topError` are exceptions escaping the
fetches (propagated to the caller); `noChannel` is the logged
`return` when `bot.get_channel` fails; `forbidden` is `channel.send`
raising `discord.Forbidden` (swallowed); `sent` is a delivered
notification.  The last three carry the content and embed of the attempted
send (`noChannel` happens before the content is built). -/
inductive AlertOutcome where
  | stale
  | failedPlay
  | beatmapError (e : RemoteError)
  | topError (e : RemoteError)
  | noChannel
  | forbidden (content : String) (embed : Embed)
  | sent (content : String) (embed : Embed)
deriving DecidableEq, Repr

/-- The effect trace of one `alert_play` call: every `self.tracking.put`
performed (key and value, in order), whether each fetch was attempted, and
the outcome. -/
structure AlertResult where
  writes : List (Nat × TrackingInfo)
  beatmapFetched : Bool
  topFetched : Bool
  outcome : AlertOutcome
deriving DecidableEq, Repr

/-- The content string handed to `channel.send` by an `alert_play` call,
`none` when the call never reached the send. -/
def sendContent : AlertOutcome → Option String
  | .sent c _ => some c
  | .forbidden c _ => some c
  | _ => none

/-- The environment one `alert_play` call runs in: the responses the osu!
API delivers to its `get_beatmaps` and `get_user_best` requests, the chat
platform's `get_user` (display string of the resolved user) and
`get_channel` lookups, and whether `channel.send` raises
`discord.Forbidden`. -/
structure Env where
  beatmapResp : HttpResponse (List OsuBeatmap)
  topResp : HttpResponse (List OsuPlay)
  getUser : Nat → Option String
  getChannel : Nat → Option Nat
  sendForbidden : Bool

/-- `alert_play(user_id, info, play)`, traced.  Mirrors the source line by
line: staleness check on `info.get('last_tracked')` (`play.date == None` is
false in Python, hence the `Option` comparison); unconditional
`tracking.put` of `{**info, 'last_tracked': play.date}`; early return on
rank `'F'`; beatmap fetch; embed construction; top-play fetch;
`discord.utils.get(top_plays, date=play.date)` as a first-match linear
scan; channel resolution; content construction
`f'<@{user_id}> **+{as_top_play.pp} PP'`; send with `discord.Forbidden`
swallowed. -/
def alert_play (env : Env) (user_id : Nat) (info : TrackingInfo)
    (play : OsuPlay) : AlertResult :=
  if info.last_tracked = some play.date then
    { writes := [], beatmapFetched := false, topFetched := false
      outcome := .stale }
  else
    let info' : TrackingInfo := { info with last_tracked := some play.date }
    let writes := [(user_id, info')]
    if play.rank = "F" then
      { writes := writes, beatmapFetched := false, topFetched := false
        outcome := .failedPlay }
    else
      match get_beatmap env.beatmapResp with
      | .error e =>
        { writes := writes, beatmapFetched := true, topFetched := false
          outcome := .beatmapError e }
      | .ok beatmap =>
        let stars := fmtOneDec beatmap.difficultyrating
        let user := env.getUser user_id
        let embed := mkEmbed beatmap info user play stars
        match get_top_plays env.topResp with
        | .error e =>
          { writes := writes, beatmapFetched := true, topFetched := true
            outcome := .topError e }
        | .ok top_plays =>
          let as_top_play := top_plays.find? (fun p => p.date == play.date)
          match env.getChannel info.channel_id with
          | none =>
            { writes := writes, beatmapFetched := true, topFetched := true
              outcome := .noChannel }
          | some _ =>
            let content :=
              match as_top_play with
              | some tp =>
                "<@" ++ toString user_id ++ ">" ++ " **" ++
                  ("+" ++ tp.pp ++ " PP")
              | none => ""
            if env.sendForbidden then
              { writes := writes, beatmapFetched := true, topFetched := true
                outcome := .forbidden content embed }
            else
              { writes := writes, beatmapFetched := true, topFetched := true
                outcome := .sent content embed }

/-- The tracking store (`osu.json`): an association list keyed by platform
user id. -/
def Store := List (Nat × TrackingInfo)

/-- `tracking.get(key)`. -/
def storeGet (store : Store) (k : Nat) : Option TrackingInfo :=
  (List.find? (fun e => e.1 == k) store).map (fun e => e.2)

/-- `tracking.put(key, value)`: replaces any existing record under the
key. -/
def storePut (store : Store) (k : Nat) (v : TrackingInfo) : Store :=
  (k, v) :: List.filter (fun e => !(e.1 == k)) store

/-- The `track` command body: overwrites the invoker's record with a fresh
dict of exactly `channel_id`, `osu_username`, `created_at`, `guild_id` — no
`last_tracked` key. -/
def track (store : Store) (author_id : Nat) (channel_id : Nat)
    (username : String) (now : Nat) (guild_id : Nat) : Store :=
  storePut store author_id
    { channel_id := channel_id, osu_username := username, created_at := now
      guild_id := guild_id, last_tracked := none }

/-- One entry of a poll cycle's trace: a user whose recent-play fetch came
back empty (logged, skipped), or a user whose first recent play was handed
to `alert_play`. -/
inductive UserStep where
  | noPlays (uid : Nat)
  | alerted (uid : Nat) (r : AlertResult)
deriving DecidableEq, Repr

/-- The exception (if any) that escaped an `alert_play` call: in the source
the fetch errors are not caught inside `alert_play`, so they propagate to
`poll`'s loop body. -/
def raised : AlertOutcome → Option RemoteError
  | .beatmapError e => some e
  | .topError e => some e
  | _ => none

/-- The environment one poll cycle runs in: for each osu! username, the
response to its `get_user_recent` request, and for each user id, the
environment its `alert_play` call sees. -/
structure PollEnv where
  recent : String → HttpResponse (List OsuPlay)
  alertEnv : Nat → Env

/-- One iteration of `poll`'s `while True` body over the snapshot
`self.tracking.all().items()`: sequentially per user, fetch one recent play
(`limit=1`); an escaping exception — from `get_recent_plays` or from inside
`alert_play` — propagates out of the `for` loop (there is no try/except
around the body), ending the cycle with the users processed so far; an
empty play list is logged and skipped (`continue`); otherwise `plays[0]`
goes to `alert_play`. -/
def pollCycle (env : PollEnv) : Store → List UserStep × Option RemoteError
  | [] => ([], none)
  | (uid, info) :: rest =>
    match get_recent_plays (env.recent info.osu_username) with
    | .error e => ([], some e)
    | .ok [] =>
      let r := pollCycle env rest
      (UserStep.noPlays uid :: r.1, r.2)
    | .ok (p :: _) =>
      let a := alert_play (env.alertEnv uid) uid info p
      match raised a.outcome with
      | some e => ([UserStep.alerted uid a], some e)
      | none =>
        let r := pollCycle env rest
        (UserStep.alerted uid a :: r.1, r.2)

/-- In the stale branch `alert_play` returns before the `put`: no write, no
fetch, no send. -/
theorem alert_play_stale (env : Env) (uid : Nat) (info : TrackingInfo)
    (play : OsuPlay) (h : info.last_tracked = some play.date) :
    alert_play env uid info play =
      { writes := [], beatmapFetched := false, topFetched := false
        outcome := .stale } := by
  simp [alert_play, h]

/-- In every non-stale branch the single `tracking.put` of the record with
`last_tracked := play.date` has happened, whatever the rank, the fetches and
the delivery do afterwards. -/
theorem alert_play_writes_nonstale (env : Env) (uid : Nat)
    (info : TrackingInfo) (play : OsuPlay)
    (h : ¬ info.last_tracked = some play.date) :
    (alert_play env uid info play).writes =
      [(uid, { info with last_tracked := some play.date })] := by
  unfold alert_play
  rw [if_neg h]
  repeat' split <;> try rfl

/-- The record a sequential caller holds after an `alert_play` call: the
value of the last `tracking.put`, or the unchanged record when no put
happened. -/
def recordAfter (info : TrackingInfo) (r : AlertResult) : TrackingInfo :=
  match r.writes.getLast? with
  | some kv => kv.2
  | none => info

/-- Number of notifications a single `alert_play` call handed to
`channel.send` (0 or 1; a send swallowed by `discord.Forbidden` counts as
attempted). -/
def sendCount (r : AlertResult) : Nat :=
  match sendContent r.outcome with
  | some _ => 1
  | none => 0

theorem sendCount_le_one (r : AlertResult) : sendCount r ≤ 1 := by
  unfold sendCount
  split <;> simp

/-- In every non-stale branch the outcome is past the staleness return. -/
theorem alert_play_nonstale_outcome (env : Env) (uid : Nat)
    (info : TrackingInfo) (play : OsuPlay)
    (h : ¬ info.last_tracked = some play.date) :
    (alert_play env uid info play).outcome ≠ .stale := by
  unfold alert_play
  rw [if_neg h]
  dsimp only
  repeat' split
  all_goals exact fun hco => AlertOutcome.noConfusion hco

/-! Concrete sample data, used by the witnesses. -/

def samplePlay : OsuPlay :=
  { user_id := "8792", beatmap_id := "774965", score := "123456"
    maxcombo := "200", count50 := "1", count100 := "20", count300 := "300"
    countmiss := "0", countkatu := "5", countgeki := "10", perfect := "0"
    enabled_mods := "0", date := "2021-01-01", rank := "S", pp := "0" }

def sampleBeatmap : OsuBeatmap :=
  { beatmapset_id := "332952", beatmap_id := "774965", approved := "1"
    total_length := "142", hit_length := "131", version := "Insane"
    file_md5 := "d5", diff_size := "4", diff_overall := "8"
    diff_approach := "9", diff_drain := "6", mode := "0"
    approved_date := "2015-10-01", last_update := "2015-09-01"
    artist := "Artist", title := "Title", creator := "Mapper", bpm := "180"
    source := "", tags := "", genre_id := "2", language_id := "3"
    favourite_count := "40", playcount := "100000", passcount := "20000"
    max_combo := "523", difficultyrating := "4.52" }

def sampleInfo : TrackingInfo :=
  { channel_id := 555, osu_username := "alice", created_at := 1610000000
    guild_id := 99, last_tracked := none }

def sampleEnv : Env :=
  { beatmapResp := ⟨200, [sampleBeatmap]⟩, topResp := ⟨200, []⟩
    getUser := fun _ => some "alice#0001", getChannel := fun _ => some 555
    sendForbidden := false }

/-- C1: for a play whose date equals the record's stored `last_tracked`,
`alert_play` hits the staleness check and returns: no `tracking.put`, no
fetch, no notification. -/
theorem stale_play_no_write_no_send (env : Env) (uid : Nat)
    (info : TrackingInfo) (play : OsuPlay)
    (h : info.last_tracked = some play.date) :
    alert_play env uid info play =
      { writes := [], beatmapFetched := false, topFetched := false
        outcome := .stale } :=
  alert_play_stale env uid info play h

theorem stale_play_no_write_no_send_witness :
    ({ sampleInfo with last_tracked := some "2021-01-01"
      : TrackingInfo }).last_tracked = some samplePlay.date ∧
    alert_play sampleEnv 1
        { sampleInfo with last_tracked := some "2021-01-01" } samplePlay =
      { writes := [], beatmapFetched := false, topFetched := false
        outcome := .stale } :=
  ⟨rfl, stale_play_no_write_no_send sampleEnv 1
    { sampleInfo with last_tracked := some "2021-01-01" } samplePlay rfl⟩

/-- C2: for a non-stale play the one and only `tracking.put` of the call
stores the record with `last_tracked := play.date`, and it does so in every
branch — also when the rank check then stops the call, and also when the
beatmap or top-play fetch then raises (the env is arbitrary, so it covers
erroring fetches): the store is left at exactly that value, with no further
write. -/
theorem nonstale_play_persists_first (env : Env) (uid : Nat)
    (info : TrackingInfo) (play : OsuPlay)
    (h : ¬ info.last_tracked = some play.date) :
    (alert_play env uid info play).writes =
      [(uid, { info with last_tracked := some play.date })] :=
  alert_play_writes_nonstale env uid info play h

theorem nonstale_play_persists_first_witness :
    (¬ sampleInfo.last_tracked = some samplePlay.date) ∧
    get_beatmap (⟨200, []⟩ : HttpResponse (List OsuBeatmap)) =
      .error .emptyResult ∧
    (alert_play { sampleEnv with beatmapResp := ⟨200, []⟩ } 1 sampleInfo
        samplePlay).writes =
      [(1, { sampleInfo with last_tracked := some samplePlay.date })] :=
  ⟨by decide, rfl,
    nonstale_play_persists_first { sampleEnv with beatmapResp := ⟨200, []⟩ }
      1 sampleInfo samplePlay (by decide)⟩

/-- C3: a non-stale play with rank `'F'` stops right after the
`tracking.put`: `last_tracked` is updated, but no beatmap fetch, no
top-play fetch and no send happen. -/
theorem failed_play_updates_only (env : Env) (uid : Nat)
    (info : TrackingInfo) (play : OsuPlay)
    (h : ¬ info.last_tracked = some play.date) (hr : play.rank = "F") :
    alert_play env uid info play =
      { writes := [(uid, { info with last_tracked := some play.date })]
        beatmapFetched := false, topFetched := false
        outcome := .failedPlay } := by
  unfold alert_play
  rw [if_neg h, if_pos hr]

theorem failed_play_updates_only_witness :
    (¬ sampleInfo.last_tracked =
      some ({ samplePlay with rank := "F", date := "2021-02-02"
        : OsuPlay }).date) ∧
    ({ samplePlay with rank := "F", date := "2021-02-02"
      : OsuPlay }).rank = "F" ∧
    alert_play sampleEnv 1 sampleInfo
        { samplePlay with rank := "F", date := "2021-02-02" } =
      { writes := [(1, { sampleInfo with last_tracked := some "2021-02-02" })]
        beatmapFetched := false, topFetched := false
        outcome := .failedPlay } :=
  ⟨by decide, rfl,
    failed_play_updates_only sampleEnv 1 sampleInfo
      { samplePlay with rank := "F", date := "2021-02-02" }
      (by decide) rfl⟩

/-- C4: processing the same play twice in sequence on the same record key —
the second call seeing the record as the first call left it — sends at most
one notification overall, and the second call writes nothing and sends
nothing, leaving `last_tracked` unchanged. -/
theorem process_idempotent (env1 env2 : Env) (uid : Nat)
    (info : TrackingInfo) (play : OsuPlay) :
    (alert_play env2 uid (recordAfter info (alert_play env1 uid info play))
        play).writes = [] ∧
    sendContent (alert_play env2 uid
        (recordAfter info (alert_play env1 uid info play)) play).outcome =
      none ∧
    sendCount (alert_play env1 uid info play) +
      sendCount (alert_play env2 uid
        (recordAfter info (alert_play env1 uid info play)) play) ≤ 1 := by
  by_cases h : info.last_tracked = some play.date
  · rw [alert_play_stale env1 uid info play h]
    have hra : recordAfter info
        { writes := [], beatmapFetched := false, topFetched := false
          outcome := .stale } = info := rfl
    rw [hra, alert_play_stale env2 uid info play h]
    exact ⟨rfl, rfl, by simp [sendCount, sendContent]⟩
  · have hw := alert_play_writes_nonstale env1 uid info play h
    have hra : recordAfter info (alert_play env1 uid info play) =
        { info with last_tracked := some play.date } := by
      unfold recordAfter
      rw [hw]
      rfl
    rw [hra]
    have h2 : ({ info with last_tracked := some play.date }
        : TrackingInfo).last_tracked = some play.date := rfl
    rw [alert_play_stale env2 uid _ play h2]
    refine ⟨rfl, rfl, ?_⟩
    show sendCount (alert_play env1 uid info play) + 0 ≤ 1
    simpa using sendCount_le_one (alert_play env1 uid info play)

/-- C5: once `alert_play` reaches the send, the top-play list (the body of
the `get_user_best` response, which `get_top_plays` returns unconditionally)
has been scanned with `discord.utils.get` — a linear first-match scan
comparing date strings for equality.  On a match `tp` the content is
exactly the user mention, the Markdown bold marker, and the `+<pp> PP`
callout from `tp`; with no match the content is the empty string.  The
equalities hold whether the send is delivered or swallowed by
`discord.Forbidden`. -/
theorem notification_content_top_play (env : Env) (uid : Nat)
    (info : TrackingInfo) (play : OsuPlay) (bm : OsuBeatmap) (ch : Nat)
    (h : ¬ info.last_tracked = some play.date) (hr : ¬ play.rank = "F")
    (hb : get_beatmap env.beatmapResp = .ok bm)
    (hc : env.getChannel info.channel_id = some ch) :
    (∀ tp, List.find? (fun p => p.date == play.date) env.topResp.body =
        some tp →
      sendContent (alert_play env uid info play).outcome =
        some (("<@" ++ toString uid ++ ">") ++ " **" ++
          ("+" ++ tp.pp ++ " PP"))) ∧
    (List.find? (fun p => p.date == play.date) env.topResp.body = none →
      sendContent (alert_play env uid info play).outcome = some "") := by
  constructor
  · intro tp hf
    simp only [alert_play, if_neg h, if_neg hr, hb, get_top_plays, hc, hf]
    cases env.sendForbidden <;> rfl
  · intro hf
    simp only [alert_play, if_neg h, if_neg hr, hb, get_top_plays, hc, hf]
    cases env.sendForbidden <;> rfl

def topEntryD : OsuPlay :=
  { samplePlay with date := "2021-04-04", pp := "245.3" }

def playD : OsuPlay := { samplePlay with date := "2021-04-04" }

def envD : Env := { sampleEnv with topResp := ⟨200, [topEntryD]⟩ }

theorem notification_content_top_play_witness :
    (¬ sampleInfo.last_tracked = some playD.date) ∧
    (¬ playD.rank = "F") ∧
    get_beatmap envD.beatmapResp = .ok sampleBeatmap ∧
    envD.getChannel sampleInfo.channel_id = some 555 ∧
    List.find? (fun p => p.date == playD.date) envD.topResp.body =
      some topEntryD ∧
    sendContent (alert_play envD 42 sampleInfo playD).outcome =
      some (("<@" ++ toString (42 : Nat) ++ ">") ++ " **" ++
        ("+" ++ topEntryD.pp ++ " PP")) :=
  ⟨by decide, by decide, rfl, rfl, by decide,
    (notification_content_top_play envD 42 sampleInfo playD sampleBeatmap
      555 (by decide) (by decide) rfl rfl).1 topEntryD (by decide)⟩

/-- C6: `get_beatmap` on a successful HTTP status whose JSON body is the
empty array (unknown beatmap id) fails — `beatmaps[0]` raises, modelled as
`RemoteError.emptyResult` per the spec's error taxonomy — instead of
returning any default beatmap. -/
theorem get_beatmap_empty_result_error
    (resp : HttpResponse (List OsuBeatmap))
    (hst : resp.status < 400) (hbody : resp.body = []) :
    get_beatmap resp = .error .emptyResult := by
  have h400 : ¬ 400 ≤ resp.status := by omega
  simp [get_beatmap, raise_for_status, h400, hbody]

theorem get_beatmap_empty_result_error_witness :
    ((⟨200, []⟩ : HttpResponse (List OsuBeatmap)).status < 400) ∧
    (⟨200, []⟩ : HttpResponse (List OsuBeatmap)).body = [] ∧
    get_beatmap (⟨200, []⟩ : HttpResponse (List OsuBeatmap)) =
      .error .emptyResult :=
  ⟨by decide, rfl,
    get_beatmap_empty_result_error ⟨200, []⟩ (by decide) rfl⟩

/-- C7 counterexample: on HTTP status 500 `get_top_plays` succeeds with the
deserialized body — it never calls `resp.raise_for_status()` — while
`get_recent_plays` on the same response raises. -/
theorem get_top_plays_ignores_status_cex :
    get_top_plays (⟨500, []⟩ : HttpResponse (List OsuPlay)) =
      .ok [] ∧
    get_recent_plays (⟨500, []⟩ : HttpResponse (List OsuPlay)) =
      .error (.httpStatus 500) :=
  ⟨rfl, rfl⟩

/-- C7 amended: `get_top_plays` does not share `get_recent_plays`'s failure
semantics — it never consults the HTTP status and returns the deserialized
body of every response, success or not. -/
theorem get_top_plays_never_checks_status
    (resp : HttpResponse (List OsuPlay)) :
    get_top_plays resp = .ok resp.body :=
  rfl

def infoAlice : TrackingInfo :=
  { channel_id := 555, osu_username := "alice", created_at := 1, guild_id := 9 }

def infoBob : TrackingInfo :=
  { channel_id := 556, osu_username := "bob", created_at := 2, guild_id := 9 }

def playBob : OsuPlay := { samplePlay with date := "2021-05-05" }

/-- A cycle environment in which alice's recent-play request comes back
with HTTP status 500 while bob's succeeds with one play. -/
def pollEnvC8 : PollEnv :=
  { recent := fun name =>
      if name == "alice" then ⟨500, []⟩ else ⟨200, [playBob]⟩
    alertEnv := fun _ => sampleEnv }

/-- C8 counterexample: with alice and bob both tracked, alice's fetch
raising aborts the whole cycle — the trace is empty, so bob is never
processed — even though bob's own fetch would have succeeded. -/
theorem poll_cycle_abort_cex :
    pollCycle pollEnvC8 [(1, infoAlice), (2, infoBob)] =
      ([], some (.httpStatus 500)) ∧
    get_recent_plays (pollEnvC8.recent infoBob.osu_username) =
      .ok [playBob] := by
  constructor
  · rfl
  · rfl

/-- C8 amended: `poll`'s loop body has no per-user exception isolation.  An
exception escaping a user's recent-play fetch propagates out of the `for`
loop and ends the cycle with no remaining user processed; only the
zero-plays case is logged and skipped, with the remaining users still
processed. -/
theorem poll_cycle_error_aborts (env : PollEnv) (uid : Nat)
    (info : TrackingInfo) (rest : Store) :
    (∀ e, get_recent_plays (env.recent info.osu_username) = .error e →
      pollCycle env ((uid, info) :: rest) = ([], some e)) ∧
    (get_recent_plays (env.recent info.osu_username) = .ok [] →
      pollCycle env ((uid, info) :: rest) =
        (UserStep.noPlays uid :: (pollCycle env rest).1,
          (pollCycle env rest).2)) := by
  constructor
  · intro e he
    simp only [pollCycle, he]
  · intro he
    simp only [pollCycle, he]

theorem poll_cycle_error_aborts_witness :
    get_recent_plays (pollEnvC8.recent infoAlice.osu_username) =
      .error (.httpStatus 500) ∧
    pollCycle pollEnvC8 [(1, infoAlice), (2, infoBob)] =
      ([], some (.httpStatus 500)) :=
  ⟨rfl,
    (poll_cycle_error_aborts pollEnvC8 1 infoAlice [(2, infoBob)]).1
      (.httpStatus 500) rfl⟩

/-- C9: a non-stale, non-failing play whose fetches succeed but whose
`channel_id` resolves to no channel makes `alert_play` log and return
normally — outcome `noChannel`, which `raised` maps to no exception and
`sendContent` to no send attempt — with the single `tracking.put` already
performed. -/
theorem no_channel_logs_and_returns (env : Env) (uid : Nat)
    (info : TrackingInfo) (play : OsuPlay) (bm : OsuBeatmap)
    (h : ¬ info.last_tracked = some play.date) (hr : ¬ play.rank = "F")
    (hb : get_beatmap env.beatmapResp = .ok bm)
    (hc : env.getChannel info.channel_id = none) :
    alert_play env uid info play =
      { writes := [(uid, { info with last_tracked := some play.date })]
        beatmapFetched := true, topFetched := true
        outcome := .noChannel } ∧
    raised (alert_play env uid info play).outcome = none ∧
    sendContent (alert_play env uid info play).outcome = none := by
  have hmain : alert_play env uid info play =
      { writes := [(uid, { info with last_tracked := some play.date })]
        beatmapFetched := true, topFetched := true
        outcome := .noChannel } := by
    simp only [alert_play, if_neg h, if_neg hr, hb, get_top_plays, hc]
  exact ⟨hmain, by rw [hmain]; rfl, by rw [hmain]; rfl⟩

def envE : Env := { sampleEnv with getChannel := fun _ => none }

theorem no_channel_logs_and_returns_witness :
    (¬ sampleInfo.last_tracked = some samplePlay.date) ∧
    (¬ samplePlay.rank = "F") ∧
    get_beatmap envE.beatmapResp = .ok sampleBeatmap ∧
    envE.getChannel sampleInfo.channel_id = none ∧
    alert_play envE 7 sampleInfo samplePlay =
      { writes := [(7, { sampleInfo with last_tracked := some "2021-01-01" })]
        beatmapFetched := true, topFetched := true
        outcome := .noChannel } :=
  ⟨by decide, by decide, rfl, rfl,
    (no_channel_logs_and_returns envE 7 sampleInfo samplePlay sampleBeatmap
      (by decide) (by decide) rfl rfl).1⟩

/-- C10: the `track` command body overwrites whatever record the invoker
had with a fresh dict of exactly `channel_id`, `osu_username`,
`created_at`, `guild_id` — no `last_tracked` key — so any play (also one
already notified under the old record) is non-stale on the next poll and
triggers the `tracking.put` again. -/
theorem track_overwrites_resets_dedup (store : Store) (uid ch : Nat)
    (name : String) (now gid : Nat) (env : Env) (play : OsuPlay) :
    storeGet (track store uid ch name now gid) uid =
      some { channel_id := ch, osu_username := name, created_at := now
             guild_id := gid, last_tracked := none } ∧
    (alert_play env uid
        { channel_id := ch, osu_username := name, created_at := now
          guild_id := gid, last_tracked := none } play).outcome ≠ .stale ∧
    (alert_play env uid
        { channel_id := ch, osu_username := name, created_at := now
          guild_id := gid, last_tracked := none } play).writes =
      [(uid, { channel_id := ch, osu_username := name, created_at := now
               guild_id := gid, last_tracked := some play.date })] := by
  refine ⟨?_, ?_, ?_⟩
  · simp [storeGet, storePut, track]
  · exact alert_play_nonstale_outcome env uid _ play (by simp)
  · exact alert_play_writes_nonstale env uid _ play (by simp)

end Bottlecap
